import Mathlib

/-!
# BudgetGuard TechOps — verification of the deployment orchestration core

Shallow embedding of the Multi-Cloud Deployment Orchestration Layer and the
Selection State Manager of the BudgetGuard_TechOps repository:

* `src/gui/tabs/deployment_state.py`  — `DeploymentStateManager`
* `src/gui/tabs/deployment_actions.py`— `execute_deployments`
* `src/config/config_manager.py`      — endpoint store (`load_endpoints`/`save_endpoints`)
* `src/deployment/aws_deployer.py`    — `AWSDeployer`
* `src/deployment/gcp_deployer.py`    — `GCPDeployer`
* `src/deployment/azure_deployer.py`  — `AzureDeployer`

Python dictionaries are embedded as insertion-ordered association lists with
string keys (`Dict` below): `d[k] = v` updates the value in place when the key
is present and appends otherwise, exactly as CPython dicts behave.  Tkinter
`BooleanVar` checkbox variables are embedded as `Option Bool` (`none` models a
Python `None` entry, which the source guards with `if var is not None`).
Provider SDK calls are embedded as operations on explicit provider-state
records; calls that can fail return `Except String`.

Note: `gcp_deployer.py` and `azure_deployer.py` contain an unclosed outer
`try:` in their get-or-create-cluster functions (a `try` whose `except` was
evidently lost when the creation code was dedented; the inner
`except NotFound: pass` survives).  The embedding follows the evident control
flow: look the cluster up, return it when found, otherwise fall through to the
creation code.
-/

namespace BudgetGuard

/-- Insertion-ordered string-keyed dictionary, mirroring a CPython `dict`:
iteration follows insertion order, and assignment to an existing key keeps
its position. -/
abbrev Dict (α : Type) : Type := List (String × α)

namespace Dict

variable {α : Type}

/-- `d.get(k)` / `d[k]` lookup: first entry with the key. -/
def find? : Dict α → String → Option α
  | [], _ => none
  | p :: d, k => if p.1 = k then some p.2 else find? d k

/-- `k in d`. -/
def contains (d : Dict α) (k : String) : Bool :=
  (find? d k).isSome

/-- Overwrite the value of an existing key, keeping its position. -/
def replace : Dict α → String → α → Dict α
  | [], _, _ => []
  | p :: d, k, v => (if p.1 = k then (k, v) else p) :: replace d k v

/-- `d[k] = v`: replace in place when the key is present, append otherwise. -/
def insert (d : Dict α) (k : String) (v : α) : Dict α :=
  if contains d k then replace d k v else d ++ [(k, v)]

/-- Drop every entry with the key (`del d[k]`). -/
def erase (d : Dict α) (k : String) : Dict α :=
  List.filter (fun p => ¬ p.1 = k) d

/-- The keys, in iteration order. -/
def keys (d : Dict α) : List String :=
  List.map Prod.fst d

/-- Well-formedness: no duplicate keys (every CPython dict satisfies this). -/
def WF (d : Dict α) : Prop := (keys d).Nodup

instance (d : Dict α) : Decidable d.WF := by
  unfold WF; exact List.nodupDecidable _

theorem find?_append (d₁ d₂ : Dict α) (k : String) :
    find? (d₁ ++ d₂) k = (find? d₁ k).or (find? d₂ k) := by
  induction d₁ with
  | nil => simp [find?]
  | cons p d ih =>
      rw [List.cons_append]
      simp only [find?]
      by_cases h : p.1 = k <;> simp [h, ih]

theorem find?_replace_self (d : Dict α) (k : String) (v : α)
    (h : contains d k = true) : find? (replace d k v) k = some v := by
  induction d with
  | nil => simp [contains, find?] at h
  | cons p d ih =>
      simp only [replace]
      by_cases hp : p.1 = k
      · simp [find?, hp]
      · simp only [hp, if_false]
        simp only [contains, find?, hp, if_false] at h
        simp only [find?, hp, if_false]
        exact ih h

theorem find?_insert_self (d : Dict α) (k : String) (v : α) :
    find? (insert d k v) k = some v := by
  unfold insert
  by_cases h : contains d k
  · simp only [h, if_true]
    exact find?_replace_self d k v h
  · rw [if_neg h, find?_append]
    simp only [contains] at h
    cases hf : find? d k with
    | some v' => rw [hf] at h; simp at h
    | none => simp [find?]

theorem find?_replace_ne (d : Dict α) (k k' : String) (v : α) (h : k' ≠ k) :
    find? (replace d k v) k' = find? d k' := by
  induction d with
  | nil => simp [replace]
  | cons p d ih =>
      simp only [replace]
      have hk' : ¬ (k = k') := fun hh => h hh.symm
      by_cases hp : p.1 = k
      · have hpk' : ¬ (p.1 = k') := by rw [hp]; exact hk'
        simp only [hp, if_true, find?, hk', if_false, hpk']
        exact ih
      · simp only [hp, if_false, find?]
        by_cases hp' : p.1 = k' <;> simp [hp', ih]

theorem find?_insert_ne (d : Dict α) (k k' : String) (v : α) (h : k' ≠ k) :
    find? (insert d k v) k' = find? d k' := by
  unfold insert
  by_cases hc : contains d k
  · simp only [hc, if_true]
    exact find?_replace_ne d k k' v h
  · rw [if_neg hc, find?_append]
    have hk' : ¬ (k = k') := fun hh => h hh.symm
    simp only [find?, hk', if_false]
    cases find? d k' <;> simp

/-- A value-rewriting map (keys untouched) commutes with lookup. -/
theorem find?_mapVal (g : String → α → α) (d : Dict α) (k : String) :
    find? (List.map (fun p => (p.1, g p.1 p.2)) d) k = (find? d k).map (g k) := by
  induction d with
  | nil => simp [find?]
  | cons p d ih =>
      simp only [List.map_cons, find?]
      by_cases hp : p.1 = k
      · subst hp; simp
      · simp [hp, ih]

theorem mem_keys_of_find?_eq_some {d : Dict α} {k : String} {v : α}
    (h : find? d k = some v) : k ∈ keys d := by
  induction d with
  | nil => simp [find?] at h
  | cons p d ih =>
      simp only [find?] at h
      by_cases hp : p.1 = k
      · unfold keys; simp [← hp]
      · simp only [hp, if_false] at h
        unfold keys
        simp only [List.map_cons, List.mem_cons]
        exact Or.inr (ih h)

theorem find?_eq_none_of_not_mem_keys {d : Dict α} {k : String}
    (h : k ∉ keys d) : find? d k = none := by
  cases hf : find? d k with
  | none => rfl
  | some v => exact absurd (mem_keys_of_find?_eq_some hf) h

theorem mem_of_find?_eq_some {d : Dict α} {k : String} {v : α}
    (h : find? d k = some v) : (k, v) ∈ d := by
  induction d with
  | nil => simp [find?] at h
  | cons p d ih =>
      simp only [find?] at h
      by_cases hp : p.1 = k
      · simp only [hp, if_true, Option.some.injEq] at h
        exact List.mem_cons.mpr (Or.inl (by rw [← h, ← hp]))
      · simp only [hp, if_false] at h
        exact List.mem_cons_of_mem _ (ih h)

theorem find?_eq_some_of_mem {d : Dict α} {k : String} {v : α}
    (hwf : WF d) (hmem : (k, v) ∈ d) : find? d k = some v := by
  induction d with
  | nil => simp at hmem
  | cons p d ih =>
      simp only [WF, keys, List.map_cons, List.nodup_cons] at hwf
      rcases List.mem_cons.mp hmem with h | h
      · subst h; simp [find?]
      · have hk : k ∈ keys d := List.mem_map_of_mem Prod.fst h
        have hp : p.1 ≠ k := fun hh => hwf.1 (hh ▸ hk)
        simp only [find?, hp, if_false]
        exact ih hwf.2 h

end Dict

/-- Python `str.lower()` as used on provider names (all ASCII in this GUI):
lowercase each character. -/
def pyLower (s : String) : String :=
  String.mk (s.data.map Char.toLower)

/-! ## Selection State Manager (`src/gui/tabs/deployment_state.py`)

Data model of `DeploymentStateManager`:

* a checkbox variable (`tk.BooleanVar` or `None`) is a `Var := Option Bool`;
* `deployment_checkboxes` maps a node name to `{'vars': {provider: var}}`.
  `create_normal_table` (deployment_tab.py line 225) builds every node entry
  in exactly that shape, so the `isinstance(node_data, dict) and 'vars' in
  node_data` guard always passes and a node entry is embedded directly as its
  `vars` dictionary;
* `deployment_state` maps a GPU tier to a node→provider→bool mapping.
  `current_gpu_tier` is set to the visible tier at GUI startup
  (deployment_tab.py line 136) and on every tier switch, so it is embedded as
  a `String`;
* `local_only_state` / `local_only_checkboxes` map a node to a var. -/

/-- A Tkinter checkbox variable: `none` is Python `None`, `some b` a
`BooleanVar` whose `.get()` is `b`. -/
abbrev Var := Option Bool

/-- The `'vars'` dictionary of one node row: provider → variable. -/
abbrev NodeVars := Dict Var

/-- `deployment_checkboxes`: node → `{'vars': …}`. -/
abbrev Checkboxes := Dict NodeVars

/-- One tier's saved state: node → provider → bool. -/
abbrev TierState := Dict (Dict Bool)

/-- `self.deployment_state`: gpu tier → tier state. -/
abbrev DeploymentState := Dict TierState

namespace DeploymentStateManager

/-- Inner loop of `save_state_for_gpu_tier`: overlay every non-`None` var of
one node row onto that node's saved provider map
(`self.deployment_state[gpu_tier][node][provider] = var.get()`). -/
def saveVars (node_state : Dict Bool) (vars : NodeVars) : Dict Bool :=
  List.foldl
    (fun ns pv =>
      match pv.2 with
      | some b => Dict.insert ns pv.1 b
      | none => ns)
    node_state vars

/-- Node loop of `save_state_for_gpu_tier`: for each node row, ensure a saved
entry exists (`{}` if absent) and overlay the row's vars. -/
def saveNodes (tier_state : TierState) (deployment_checkboxes : Checkboxes) : TierState :=
  List.foldl
    (fun ts nd =>
      Dict.insert ts nd.1 (saveVars ((Dict.find? ts nd.1).getD []) nd.2))
    tier_state deployment_checkboxes

/-- `DeploymentStateManager.save_state_for_gpu_tier` (deployment_state.py
lines 28-43): commit the visible checkbox values under `gpu_tier`. -/
def save_state_for_gpu_tier (state : DeploymentState) (gpu_tier : String)
    (deployment_checkboxes : Checkboxes) : DeploymentState :=
  let state₁ := if Dict.contains state gpu_tier then state else Dict.insert state gpu_tier []
  Dict.insert state₁ gpu_tier
    (saveNodes ((Dict.find? state₁ gpu_tier).getD []) deployment_checkboxes)

/-- Inner loop of `restore_state_for_gpu_tier`: set every non-`None` var whose
provider has a saved value (`var.set(gpu_state[node][provider])`). -/
def restoreVars (node_state : Dict Bool) (vars : NodeVars) : NodeVars :=
  List.map
    (fun pv => (pv.1,
      match pv.2, Dict.find? node_state pv.1 with
      | some _, some b => some b
      | v, _ => v))
    vars

/-- `DeploymentStateManager.restore_state_for_gpu_tier` (deployment_state.py
lines 55-85): write the saved values of `gpu_tier` back into the visible
checkboxes; when the tier has no saved state, uncheck every non-`None` var. -/
def restore_state_for_gpu_tier (state : DeploymentState) (gpu_tier : String)
    (deployment_checkboxes : Checkboxes) : Checkboxes :=
  match Dict.find? state gpu_tier with
  | some gpu_state =>
      List.map
        (fun nd => (nd.1,
          match Dict.find? gpu_state nd.1 with
          | some node_state => restoreVars node_state nd.2
          | none => nd.2))
        deployment_checkboxes
  | none =>
      List.map
        (fun nd => (nd.1,
          List.map
            (fun pv => (pv.1,
              match pv.2 with
              | some _ => some false
              | none => (none : Var)))
            nd.2))
        deployment_checkboxes

/-- The value of one checkbox: `some var` when node and provider are present
(`var` itself still `Option Bool`), `none` when absent. -/
def getVar (deployment_checkboxes : Checkboxes) (node provider : String) :
    Option Var :=
  (Dict.find? deployment_checkboxes node).bind (fun vars => Dict.find? vars provider)

/-- Keys of every node row's vars dictionary are duplicate-free (true of every
CPython dict). -/
def CheckboxesWF (deployment_checkboxes : Checkboxes) : Prop :=
  Dict.WF deployment_checkboxes ∧
    ∀ nd ∈ deployment_checkboxes, Dict.WF nd.2

instance (cbs : Checkboxes) : Decidable (CheckboxesWF cbs) := by
  unfold CheckboxesWF; exact instDecidableAnd

theorem saveVars_find?_of_not_mem (ns : Dict Bool) (vars : NodeVars) (p : String)
    (h : p ∉ Dict.keys vars) :
    Dict.find? (saveVars ns vars) p = Dict.find? ns p := by
  induction vars generalizing ns with
  | nil => rfl
  | cons pv rest ih =>
      simp only [Dict.keys, List.map_cons, List.mem_cons, not_or] at h
      simp only [saveVars, List.foldl_cons]
      have step : Dict.find?
          (match pv.2 with
           | some b => Dict.insert ns pv.1 b
           | none => ns) p = Dict.find? ns p := by
        cases pv.2 with
        | some b => exact Dict.find?_insert_ne ns pv.1 p b h.1
        | none => rfl
      rw [show (List.foldl
          (fun ns' pv' =>
            match pv'.2 with
            | some b => Dict.insert ns' pv'.1 b
            | none => ns') (match pv.2 with
              | some b => Dict.insert ns pv.1 b
              | none => ns) rest) = saveVars (match pv.2 with
              | some b => Dict.insert ns pv.1 b
              | none => ns) rest from rfl]
      rw [ih _ (fun hm => h.2 hm), step]

theorem saveVars_find? (ns : Dict Bool) (vars : NodeVars) (p : String) (b : Bool)
    (hwf : Dict.WF vars) (h : Dict.find? vars p = some (some b)) :
    Dict.find? (saveVars ns vars) p = some b := by
  induction vars generalizing ns with
  | nil => simp [Dict.find?] at h
  | cons pv rest ih =>
      simp only [Dict.WF, Dict.keys, List.map_cons, List.nodup_cons] at hwf
      simp only [Dict.find?] at h
      simp only [saveVars, List.foldl_cons]
      by_cases hp : pv.1 = p
      · simp only [hp, if_true, Option.some.injEq] at h
        rw [show (List.foldl
            (fun ns' pv' =>
              match pv'.2 with
              | some b' => Dict.insert ns' pv'.1 b'
              | none => ns') (match pv.2 with
                | some b' => Dict.insert ns pv.1 b'
                | none => ns) rest) = saveVars (match pv.2 with
                | some b' => Dict.insert ns pv.1 b'
                | none => ns) rest from rfl]
        rw [saveVars_find?_of_not_mem _ rest p (hp ▸ hwf.1)]
        rw [h, hp]
        exact Dict.find?_insert_self ns p b
      · simp only [hp, if_false] at h
        exact ih _ hwf.2 h

theorem saveNodes_find?_of_not_mem (ts : TierState) (cbs : Checkboxes) (node : String)
    (h : node ∉ Dict.keys cbs) :
    Dict.find? (saveNodes ts cbs) node = Dict.find? ts node := by
  induction cbs generalizing ts with
  | nil => rfl
  | cons nd rest ih =>
      simp only [Dict.keys, List.map_cons, List.mem_cons, not_or] at h
      simp only [saveNodes, List.foldl_cons]
      rw [show (List.foldl
          (fun ts' nd' =>
            Dict.insert ts' nd'.1 (saveVars ((Dict.find? ts' nd'.1).getD []) nd'.2))
          (Dict.insert ts nd.1 (saveVars ((Dict.find? ts nd.1).getD []) nd.2)) rest)
          = saveNodes (Dict.insert ts nd.1 (saveVars ((Dict.find? ts nd.1).getD []) nd.2)) rest
          from rfl]
      rw [ih _ (fun hm => h.2 hm)]
      exact Dict.find?_insert_ne _ nd.1 node _ h.1

theorem saveNodes_find? (ts : TierState) (cbs : Checkboxes) (node : String)
    (vars : NodeVars) (hwf : Dict.WF cbs) (h : Dict.find? cbs node = some vars) :
    Dict.find? (saveNodes ts cbs) node
      = some (saveVars ((Dict.find? ts node).getD []) vars) := by
  induction cbs generalizing ts with
  | nil => simp [Dict.find?] at h
  | cons nd rest ih =>
      simp only [Dict.WF, Dict.keys, List.map_cons, List.nodup_cons] at hwf
      simp only [Dict.find?] at h
      simp only [saveNodes, List.foldl_cons]
      rw [show (List.foldl
          (fun ts' nd' =>
            Dict.insert ts' nd'.1 (saveVars ((Dict.find? ts' nd'.1).getD []) nd'.2))
          (Dict.insert ts nd.1 (saveVars ((Dict.find? ts nd.1).getD []) nd.2)) rest)
          = saveNodes (Dict.insert ts nd.1 (saveVars ((Dict.find? ts nd.1).getD []) nd.2)) rest
          from rfl]
      by_cases hp : nd.1 = node
      · simp only [hp, if_true, Option.some.injEq] at h
        rw [saveNodes_find?_of_not_mem _ rest node (hp ▸ hwf.1), hp]
        rw [Dict.find?_insert_self, h]
      · simp only [hp, if_false] at h
        rw [ih _ hwf.2 h]
        rw [Dict.find?_insert_ne _ nd.1 node _ (fun hh => hp hh.symm)]

/-- Committing under tier `B` leaves the saved state of any other tier `A`
untouched. -/
theorem save_find?_other (state : DeploymentState) (A B : String) (h : A ≠ B)
    (cbs : Checkboxes) :
    Dict.find? (save_state_for_gpu_tier state B cbs) A = Dict.find? state A := by
  unfold save_state_for_gpu_tier
  by_cases hc : Dict.contains state B
  · simp only [hc, if_true]
    exact Dict.find?_insert_ne _ B A _ h
  · rw [if_neg hc, Dict.find?_insert_ne _ B A _ h, Dict.find?_insert_ne _ B A _ h]

/-- Committing under tier `A` stores exactly the overlay of the checkbox
values onto the previously saved tier state. -/
theorem save_find?_self (state : DeploymentState) (A : String) (cbs : Checkboxes) :
    ∃ base : TierState,
      Dict.find? (save_state_for_gpu_tier state A cbs) A = some (saveNodes base cbs) := by
  unfold save_state_for_gpu_tier
  exact ⟨_, Dict.find?_insert_self _ A _⟩

theorem restore_find? (gpu_state : TierState) (cbs : Checkboxes) (node : String) :
    Dict.find?
      (List.map
        (fun nd => (nd.1,
          match Dict.find? gpu_state nd.1 with
          | some node_state => restoreVars node_state nd.2
          | none => nd.2))
        cbs) node
      = (Dict.find? cbs node).map
          (fun v =>
            match Dict.find? gpu_state node with
            | some node_state => restoreVars node_state v
            | none => v) := by
  induction cbs with
  | nil => simp [Dict.find?]
  | cons nd rest ih =>
      simp only [List.map_cons, Dict.find?]
      by_cases hp : nd.1 = node
      · subst hp; simp
      · simp [hp, ih]

theorem restoreVars_find? (node_state : Dict Bool) (vars : NodeVars) (p : String) :
    Dict.find? (restoreVars node_state vars) p
      = (Dict.find? vars p).map
          (fun v =>
            match v, Dict.find? node_state p with
            | some _, some b => some b
            | v, _ => v) := by
  induction vars with
  | nil => simp [restoreVars, Dict.find?]
  | cons pv rest ih =>
      simp only [restoreVars, List.map_cons, Dict.find?]
      by_cases hp : pv.1 = p
      · subst hp; simp
      · simp only [hp, if_false]
        exact ih

end DeploymentStateManager

open DeploymentStateManager in
/-- C2: For any sequence of checkbox selections recorded under tier A,
switching the active GPU tier from A to B and then from B back to A restores
exactly the selections that were committed under A before the first switch:
every checkbox present (with a non-`None` variable) in the committed table
gets back the value it had when tier A was saved, whatever the recreated
table held in the meantime. -/
theorem gpu_tier_round_trip
    (state : DeploymentState) (A B : String) (hAB : A ≠ B)
    (cbs cbs' : Checkboxes) (node provider : String) (b b' : Bool)
    (hwf : CheckboxesWF cbs)
    (h1 : getVar cbs node provider = some (some b))
    (h2 : getVar cbs' node provider = some (some b')) :
    getVar
      (restore_state_for_gpu_tier
        (save_state_for_gpu_tier (save_state_for_gpu_tier state A cbs) B cbs')
        A cbs')
      node provider = some (some b) := by
  unfold getVar at h1 h2 ⊢
  cases hv : Dict.find? cbs node with
  | none => rw [hv] at h1; simp at h1
  | some vars =>
  rw [hv] at h1
  simp only [Option.some_bind] at h1
  cases hv' : Dict.find? cbs' node with
  | none => rw [hv'] at h2; simp at h2
  | some vars' =>
  rw [hv'] at h2
  simp only [Option.some_bind] at h2
  obtain ⟨base, hself⟩ := save_find?_self state A cbs
  have hother := save_find?_other (save_state_for_gpu_tier state A cbs) A B hAB cbs'
  rw [hself] at hother
  unfold restore_state_for_gpu_tier
  rw [hother]
  have hnodes : Dict.find? (saveNodes base cbs) node
      = some (saveVars ((Dict.find? base node).getD []) vars) :=
    saveNodes_find? base cbs node vars hwf.1 hv
  have hvars : Dict.find? (saveVars ((Dict.find? base node).getD []) vars) provider
      = some b :=
    saveVars_find? _ vars provider b (hwf.2 (node, vars) (Dict.mem_of_find?_eq_some hv)) h1
  rw [restore_find? (saveNodes base cbs) cbs' node, hv']
  simp [hnodes, restoreVars_find?, h2, hvars]

/-- Witness for `gpu_tier_round_trip` at a concrete instance: the scenario of
spec §8 — FLUX Dev → AWS checked under a10g, switch to t4 (table recreated
all-unchecked), switch back to a10g: the AWS checkbox is checked again. -/
theorem gpu_tier_round_trip_witness :
    (("a10g" : String) ≠ "t4") ∧
    DeploymentStateManager.getVar
      (DeploymentStateManager.restore_state_for_gpu_tier
        (DeploymentStateManager.save_state_for_gpu_tier
          (DeploymentStateManager.save_state_for_gpu_tier [] "a10g"
            [("FLUX Dev", [("aws", some true), ("azure", some false),
                           ("gcp", some false), ("nvidia-hosted", some false),
                           ("local", some false)])])
          "t4"
          [("FLUX Dev", [("aws", some false), ("azure", some false),
                         ("gcp", some false), ("nvidia-hosted", some false),
                         ("local", some false)])])
        "a10g"
        [("FLUX Dev", [("aws", some false), ("azure", some false),
                       ("gcp", some false), ("nvidia-hosted", some false),
                       ("local", some false)])])
      "FLUX Dev" "aws" = some (some true) :=
  ⟨by decide,
    gpu_tier_round_trip [] "a10g" "t4" (by decide)
      [("FLUX Dev", [("aws", some true), ("azure", some false),
                     ("gcp", some false), ("nvidia-hosted", some false),
                     ("local", some false)])]
      [("FLUX Dev", [("aws", some false), ("azure", some false),
                     ("gcp", some false), ("nvidia-hosted", some false),
                     ("local", some false)])]
      "FLUX Dev" "aws" true false (by decide) (by decide) (by decide)⟩

/-! ## Task collection (`DeploymentStateManager.get_selected_deployments`,
deployment_state.py lines 128-175)

A deployment task is the `(node, provider, gpu_tier)` tuple; `gpu_tier` is
`None` for tasks collected in local-only mode. -/

/-- `(node, provider, gpu_tier)`. -/
abbrev DeploymentTask := String × String × Option String

namespace DeploymentStateManager

/-- Local-only branch: one `(node, "local", None)` task per checked node. -/
def localTasks (local_only_checkboxes : Dict Var) : List DeploymentTask :=
  List.foldl
    (fun acc nv =>
      match nv.2 with
      | some true => acc ++ [(nv.1, "local", (none : Option String))]
      | _ => acc)
    [] local_only_checkboxes

/-- Innermost saved-state loop: `for provider, is_checked in
node_providers.items(): if is_checked: deployment_tasks.append(...)`. -/
def savedNodeLoop (gpu_tier node : String) (acc : List DeploymentTask)
    (node_providers : Dict Bool) : List DeploymentTask :=
  List.foldl
    (fun acc pe => if pe.2 then acc ++ [(node, pe.1, some gpu_tier)] else acc)
    acc node_providers

/-- Saved-state loop over the nodes of one tier. -/
def savedTierLoop (gpu_tier : String) (acc : List DeploymentTask)
    (gpu_state : TierState) : List DeploymentTask :=
  List.foldl (fun acc ne => savedNodeLoop gpu_tier ne.1 acc ne.2) acc gpu_state

/-- Phase 1 of normal mode: collect checked combinations from the saved state
of ALL GPU tiers. -/
def savedTasks (state : DeploymentState) : List DeploymentTask :=
  List.foldl (fun acc te => savedTierLoop te.1 acc te.2) [] state

/-- Inner loop over one visible node row: membership-checked append of each
checked combination under the current tier, tracking whether a non-"local"
provider is checked (`has_cloud_deployment`). -/
def visibleVarsLoop (node current_gpu_tier : String)
    (st : List DeploymentTask × Bool) (vars : NodeVars) :
    List DeploymentTask × Bool :=
  List.foldl
    (fun st pv =>
      match pv.2 with
      | some true =>
          let task_key : DeploymentTask := (node, pv.1, some current_gpu_tier)
          ((if task_key ∈ st.1 then st.1 else st.1 ++ [task_key]),
           st.2 || (pyLower pv.1 != "local"))
      | _ => st)
    st vars

/-- One visible node row: run the inner loop, then the auto-local rule
(`if has_cloud_deployment: … local_var and not local_var.get() …`). -/
def visibleNodeLoop (current_gpu_tier : String) (acc : List DeploymentTask)
    (nd : String × NodeVars) : List DeploymentTask :=
  let step := visibleVarsLoop nd.1 current_gpu_tier (acc, false) nd.2
  if step.2 then
    match Dict.find? nd.2 "local" with
    | some (some local_checked) =>
        if local_checked then step.1
        else
          let task_key : DeploymentTask := (nd.1, "local", some current_gpu_tier)
          if task_key ∈ step.1 then step.1 else step.1 ++ [task_key]
    | _ => step.1
  else step.1

/-- `DeploymentStateManager.get_selected_deployments` (deployment_state.py
lines 128-175). -/
def get_selected_deployments (state : DeploymentState) (current_gpu_tier : String)
    (deployment_checkboxes : Checkboxes) (local_only_checkboxes : Dict Var)
    (is_local_only : Bool) : List DeploymentTask :=
  if is_local_only then
    localTasks local_only_checkboxes
  else
    List.foldl (visibleNodeLoop current_gpu_tier) (savedTasks state)
      deployment_checkboxes

/-- All three levels of `self.deployment_state` are CPython dicts, hence
duplicate-free at each level. -/
def DeploymentStateWF (state : DeploymentState) : Prop :=
  Dict.WF state ∧ ∀ te ∈ state, Dict.WF te.2 ∧ ∀ ne ∈ te.2, Dict.WF ne.2

instance (state : DeploymentState) : Decidable (DeploymentStateWF state) := by
  unfold DeploymentStateWF; exact instDecidableAnd

/-! ### Closed forms of the collection loops -/

/-- Checked combinations of one saved node row, as a `filterMap`. -/
def nodeTasks (gpu_tier node : String) (node_providers : Dict Bool) :
    List DeploymentTask :=
  List.filterMap
    (fun pe => if pe.2 then some ((node, pe.1, some gpu_tier) : DeploymentTask) else none)
    node_providers

/-- Checked combinations of one saved tier. -/
def tierTasks (gpu_tier : String) (gpu_state : TierState) : List DeploymentTask :=
  List.flatMap gpu_state (fun ne => nodeTasks gpu_tier ne.1 ne.2)

theorem savedNodeLoop_eq (gpu_tier node : String) (acc : List DeploymentTask)
    (ps : Dict Bool) :
    savedNodeLoop gpu_tier node acc ps = acc ++ nodeTasks gpu_tier node ps := by
  induction ps generalizing acc with
  | nil => simp [savedNodeLoop, nodeTasks]
  | cons pe rest ih =>
      have hstep : ∀ acc' : List DeploymentTask,
          List.foldl
            (fun a pe' => if pe'.2 then a ++ [(node, pe'.1, some gpu_tier)] else a)
            acc' rest = savedNodeLoop gpu_tier node acc' rest := fun _ => rfl
      cases hb : pe.2 with
      | true =>
          simp only [savedNodeLoop, List.foldl_cons, nodeTasks, List.filterMap_cons, hb,
            if_true]
          rw [hstep, ih]
          simp [nodeTasks]
      | false =>
          simp only [savedNodeLoop, List.foldl_cons, nodeTasks, List.filterMap_cons, hb]
          rw [if_neg (by simp), hstep, ih]
          simp [nodeTasks]

theorem savedTierLoop_eq (gpu_tier : String) (acc : List DeploymentTask)
    (ts : TierState) :
    savedTierLoop gpu_tier acc ts = acc ++ tierTasks gpu_tier ts := by
  induction ts generalizing acc with
  | nil => simp [savedTierLoop, tierTasks]
  | cons ne rest ih =>
      simp only [savedTierLoop, List.foldl_cons, tierTasks, List.flatMap_cons]
      rw [show List.foldl
          (fun acc' ne' => savedNodeLoop gpu_tier ne'.1 acc' ne'.2)
          (savedNodeLoop gpu_tier ne.1 acc ne.2) rest
          = savedTierLoop gpu_tier (savedNodeLoop gpu_tier ne.1 acc ne.2) rest from rfl]
      rw [ih, savedNodeLoop_eq]
      simp [tierTasks]

theorem savedTasks_eq (state : DeploymentState) :
    savedTasks state = List.flatMap state (fun te => tierTasks te.1 te.2) := by
  have aux : ∀ (s : DeploymentState) (acc : List DeploymentTask),
      List.foldl (fun acc' te => savedTierLoop te.1 acc' te.2) acc s
        = acc ++ List.flatMap s (fun te => tierTasks te.1 te.2) := by
    intro s
    induction s with
    | nil => intro acc; simp
    | cons te rest ih =>
        intro acc
        simp only [List.foldl_cons, List.flatMap_cons]
        rw [ih, savedTierLoop_eq]
        simp
  simpa [savedTasks] using aux state []

theorem mem_nodeTasks {gpu_tier node : String} {ps : Dict Bool}
    {x : DeploymentTask} (h : x ∈ nodeTasks gpu_tier node ps) :
    x.1 = node ∧ x.2.2 = some gpu_tier := by
  rw [nodeTasks, List.mem_filterMap] at h
  obtain ⟨pe, _, hpe⟩ := h
  cases hb : pe.2 with
  | true =>
      simp only [hb, if_true, Option.some.injEq] at hpe
      rw [← hpe]
      exact ⟨rfl, rfl⟩
  | false => simp [hb] at hpe

theorem mem_tierTasks {gpu_tier : String} {ts : TierState}
    {x : DeploymentTask} (h : x ∈ tierTasks gpu_tier ts) : x.2.2 = some gpu_tier := by
  rw [tierTasks, List.mem_flatMap] at h
  obtain ⟨ne, _, hx⟩ := h
  exact (mem_nodeTasks hx).2

theorem nodeTasks_nodup (gpu_tier node : String) (ps : Dict Bool)
    (hwf : Dict.WF ps) : (nodeTasks gpu_tier node ps).Nodup := by
  have hnd : ps.Nodup := List.Nodup.of_map Prod.fst hwf
  refine List.Nodup.filterMap ?_ hnd
  intro a a' b hb hb'
  obtain ⟨k, v⟩ := a
  obtain ⟨k', v'⟩ := a'
  cases v <;> cases v' <;> simp_all
  exact congrArg (fun t : DeploymentTask => t.2.1) (hb.trans hb'.symm)

theorem tierTasks_nodup (gpu_tier : String) (ts : TierState)
    (hwf : Dict.WF ts) (hns : ∀ ne ∈ ts, Dict.WF ne.2) :
    (tierTasks gpu_tier ts).Nodup := by
  rw [tierTasks, List.nodup_flatMap]
  constructor
  · intro ne hne
    exact nodeTasks_nodup gpu_tier ne.1 ne.2 (hns ne hne)
  · have hpair : List.Pairwise (fun a b : String × Dict Bool => a.1 ≠ b.1) ts :=
      List.pairwise_map.mp hwf
    refine hpair.imp ?_
    intro a b hab
    intro x hxa hxb
    exact hab ((mem_nodeTasks hxa).1.symm.trans (mem_nodeTasks hxb).1)

theorem savedTasks_nodup (state : DeploymentState) (hs : DeploymentStateWF state) :
    (savedTasks state).Nodup := by
  rw [savedTasks_eq, List.nodup_flatMap]
  constructor
  · intro te hte
    exact tierTasks_nodup te.1 te.2 (hs.2 te hte).1 (hs.2 te hte).2
  · have hpair : List.Pairwise (fun a b : String × TierState => a.1 ≠ b.1) state :=
      List.pairwise_map.mp hs.1
    refine hpair.imp ?_
    intro a b hab
    intro x hxa hxb
    have h1 := mem_tierTasks hxa
    have h2 := mem_tierTasks hxb
    rw [h1] at h2
    exact hab (Option.some.inj h2)

/-! ### The visible-checkbox phase preserves deduplication -/

theorem nodup_append_singleton {x : DeploymentTask} {l : List DeploymentTask}
    (h : l.Nodup) (hx : x ∉ l) : (l ++ [x]).Nodup := by
  rw [List.nodup_append]
  refine ⟨h, List.nodup_singleton x, ?_⟩
  intro a ha hax
  rw [List.mem_singleton] at hax
  subst hax
  exact hx ha

theorem visibleVarsLoop_nodup (node tier : String) (vars : NodeVars)
    (st : List DeploymentTask × Bool) (h : st.1.Nodup) :
    (visibleVarsLoop node tier st vars).1.Nodup := by
  induction vars generalizing st with
  | nil => exact h
  | cons pv rest ih =>
      simp only [visibleVarsLoop, List.foldl_cons]
      rw [show ∀ st', List.foldl
          (fun st'' pv' =>
            match pv'.2 with
            | some true =>
                ((if ((node, pv'.1, some tier) : DeploymentTask) ∈ st''.1 then st''.1
                  else st''.1 ++ [(node, pv'.1, some tier)]),
                 st''.2 || (pyLower pv'.1 != "local"))
            | _ => st'') st' rest = visibleVarsLoop node tier st' rest
          from fun _ => rfl]
      cases hv : pv.2 with
      | none => exact ih st h
      | some b =>
          cases b with
          | false => exact ih st h
          | true =>
              apply ih
              by_cases hmem : ((node, pv.1, some tier) : DeploymentTask) ∈ st.1
              · simpa [hmem] using h
              · simpa [hmem] using nodup_append_singleton h hmem

theorem visibleNodeLoop_nodup (tier : String) (acc : List DeploymentTask)
    (nd : String × NodeVars) (h : acc.Nodup) :
    (visibleNodeLoop tier acc nd).Nodup := by
  unfold visibleNodeLoop
  have hstep := visibleVarsLoop_nodup nd.1 tier nd.2 (acc, false) h
  by_cases hc : (visibleVarsLoop nd.1 tier (acc, false) nd.2).2 <;>
    simp only [hc, if_true, if_false]
  · cases hl : Dict.find? nd.2 "local" with
    | none => exact hstep
    | some lv =>
        cases lv with
        | none => exact hstep
        | some local_checked =>
            cases local_checked with
            | true => simpa using hstep
            | false =>
                simp only
                by_cases hmem : ((nd.1, "local", some tier) : DeploymentTask)
                    ∈ (visibleVarsLoop nd.1 tier (acc, false) nd.2).1
                · simpa [hmem] using hstep
                · simpa [hmem] using nodup_append_singleton hstep hmem
  · exact hstep

theorem visibleFold_nodup (tier : String) (cbs : Checkboxes)
    (acc : List DeploymentTask) (h : acc.Nodup) :
    (List.foldl (visibleNodeLoop tier) acc cbs).Nodup := by
  induction cbs generalizing acc with
  | nil => exact h
  | cons nd rest ih =>
      simp only [List.foldl_cons]
      exact ih _ (visibleNodeLoop_nodup tier acc nd h)

theorem localTasks_eq (l : Dict Var) :
    localTasks l
      = List.filterMap
          (fun nv =>
            match nv.2 with
            | some true => some ((nv.1, "local", none) : DeploymentTask)
            | _ => none) l := by
  have aux : ∀ (l : Dict Var) (acc : List DeploymentTask),
      List.foldl
        (fun acc' nv =>
          match nv.2 with
          | some true => acc' ++ [(nv.1, "local", (none : Option String))]
          | _ => acc') acc l
        = acc ++ List.filterMap
            (fun nv =>
              match nv.2 with
              | some true => some ((nv.1, "local", none) : DeploymentTask)
              | _ => none) l := by
    intro l
    induction l with
    | nil => intro acc; simp
    | cons nv rest ih =>
        intro acc
        simp only [List.foldl_cons, List.filterMap_cons]
        cases hv : nv.2 with
        | none => simp only; rw [ih]
        | some b =>
            cases b with
            | false => simp only; rw [ih]
            | true => simp only; rw [ih]; simp
  simpa [localTasks] using aux l []

theorem localTasks_nodup (l : Dict Var) (hwf : Dict.WF l) :
    (localTasks l).Nodup := by
  rw [localTasks_eq]
  have hnd : l.Nodup := List.Nodup.of_map Prod.fst hwf
  refine List.Nodup.filterMap ?_ hnd
  intro a a' b hb hb'
  obtain ⟨k, v⟩ := a
  obtain ⟨k', v'⟩ := a'
  cases v with
  | none => simp at hb
  | some bv =>
      cases v' with
      | none => simp at hb'
      | some bv' =>
          cases bv <;> cases bv' <;> simp_all
          exact congrArg (fun t : DeploymentTask => t.1) (hb.trans hb'.symm)

/-! ### Membership facts for the auto-local rule -/

theorem mem_visibleVarsLoop (node tier : String) (vars : NodeVars)
    (st : List DeploymentTask × Bool) {x : DeploymentTask} (h : x ∈ st.1) :
    x ∈ (visibleVarsLoop node tier st vars).1 := by
  induction vars generalizing st with
  | nil => exact h
  | cons pv rest ih =>
      simp only [visibleVarsLoop, List.foldl_cons]
      rw [show ∀ st', List.foldl
          (fun st'' pv' =>
            match pv'.2 with
            | some true =>
                ((if ((node, pv'.1, some tier) : DeploymentTask) ∈ st''.1 then st''.1
                  else st''.1 ++ [(node, pv'.1, some tier)]),
                 st''.2 || (pyLower pv'.1 != "local"))
            | _ => st'') st' rest = visibleVarsLoop node tier st' rest
          from fun _ => rfl]
      cases pv.2 with
      | none => exact ih st h
      | some b =>
          cases b with
          | false => exact ih st h
          | true =>
              apply ih
              by_cases hmem : ((node, pv.1, some tier) : DeploymentTask) ∈ st.1
              · simpa [hmem] using h
              · simp only [hmem, if_false]
                exact List.mem_append_left _ h

theorem visibleVarsLoop_flag_mono (node tier : String) (vars : NodeVars)
    (st : List DeploymentTask × Bool) (h : st.2 = true) :
    (visibleVarsLoop node tier st vars).2 = true := by
  induction vars generalizing st with
  | nil => exact h
  | cons pv rest ih =>
      simp only [visibleVarsLoop, List.foldl_cons]
      rw [show ∀ st', List.foldl
          (fun st'' pv' =>
            match pv'.2 with
            | some true =>
                ((if ((node, pv'.1, some tier) : DeploymentTask) ∈ st''.1 then st''.1
                  else st''.1 ++ [(node, pv'.1, some tier)]),
                 st''.2 || (pyLower pv'.1 != "local"))
            | _ => st'') st' rest = visibleVarsLoop node tier st' rest
          from fun _ => rfl]
      cases pv.2 with
      | none => exact ih st h
      | some b =>
          cases b with
          | false => exact ih st h
          | true => exact ih _ (by simp [h])

theorem visibleVarsLoop_flag_of_cloud (node tier p : String) (vars : NodeVars)
    (st : List DeploymentTask × Bool)
    (hp : (p, (some true : Var)) ∈ vars) (hpl : pyLower p ≠ "local") :
    (visibleVarsLoop node tier st vars).2 = true := by
  induction vars generalizing st with
  | nil => simp at hp
  | cons pv rest ih =>
      simp only [visibleVarsLoop, List.foldl_cons]
      rw [show ∀ st', List.foldl
          (fun st'' pv' =>
            match pv'.2 with
            | some true =>
                ((if ((node, pv'.1, some tier) : DeploymentTask) ∈ st''.1 then st''.1
                  else st''.1 ++ [(node, pv'.1, some tier)]),
                 st''.2 || (pyLower pv'.1 != "local"))
            | _ => st'') st' rest = visibleVarsLoop node tier st' rest
          from fun _ => rfl]
      rcases List.mem_cons.mp hp with hh | hh
      · have h1 : pv.1 = p := congrArg Prod.fst hh.symm
        have h2 : pv.2 = some true := congrArg Prod.snd hh.symm
        rw [h2]
        apply visibleVarsLoop_flag_mono
        simp only [h1, Bool.or_eq_true, bne_iff_ne]
        exact Or.inr hpl
      · cases pv.2 with
        | none => exact ih st hh
        | some b =>
            cases b with
            | false => exact ih st hh
            | true => exact ih _ hh

theorem mem_visibleNodeLoop (tier : String) (acc : List DeploymentTask)
    (nd : String × NodeVars) {x : DeploymentTask} (h : x ∈ acc) :
    x ∈ visibleNodeLoop tier acc nd := by
  unfold visibleNodeLoop
  have hstep := mem_visibleVarsLoop nd.1 tier nd.2 (acc, false) h
  by_cases hc : (visibleVarsLoop nd.1 tier (acc, false) nd.2).2 <;>
    simp only [hc, if_true, if_false]
  · cases Dict.find? nd.2 "local" with
    | none => exact hstep
    | some lv =>
        cases lv with
        | none => exact hstep
        | some local_checked =>
            cases local_checked with
            | true => simpa using hstep
            | false =>
                simp only
                by_cases hmem : ((nd.1, "local", some tier) : DeploymentTask)
                    ∈ (visibleVarsLoop nd.1 tier (acc, false) nd.2).1
                · simpa [hmem] using hstep
                · simp only [hmem, if_false]
                  exact List.mem_append_left _ hstep
  · exact hstep

theorem visibleNodeLoop_auto_local (tier : String) (acc : List DeploymentTask)
    (nd : String × NodeVars) (p : String)
    (hp : (p, (some true : Var)) ∈ nd.2) (hpl : pyLower p ≠ "local")
    (hl : Dict.find? nd.2 "local" = some (some false)) :
    ((nd.1, "local", some tier) : DeploymentTask) ∈ visibleNodeLoop tier acc nd := by
  unfold visibleNodeLoop
  have hflag := visibleVarsLoop_flag_of_cloud nd.1 tier p nd.2 (acc, false) hp hpl
  simp only [hflag, if_true, hl]
  by_cases hmem : ((nd.1, "local", some tier) : DeploymentTask)
      ∈ (visibleVarsLoop nd.1 tier (acc, false) nd.2).1
  · simp [hmem]
  · simp only [hmem, if_false]
    exact List.mem_append_right _ (List.mem_singleton_self _)

theorem mem_visibleFold (tier : String) (cbs : Checkboxes)
    (acc : List DeploymentTask) {x : DeploymentTask} (h : x ∈ acc) :
    x ∈ List.foldl (visibleNodeLoop tier) acc cbs := by
  induction cbs generalizing acc with
  | nil => exact h
  | cons nd rest ih =>
      simp only [List.foldl_cons]
      exact ih _ (mem_visibleNodeLoop tier acc nd h)

end DeploymentStateManager

open DeploymentStateManager in
/-- C4: In normal mode, for every visible node row that has at least one
non-local provider checked under the active GPU tier while its local checkbox
is present and unchecked, `get_selected_deployments` returns a task list that
includes the companion task (node, "local", activeTier). -/
theorem auto_local_rule
    (state : DeploymentState) (current_gpu_tier : String)
    (deployment_checkboxes : Checkboxes) (local_only_checkboxes : Dict Var)
    (node p : String) (vars : NodeVars)
    (hmem : (node, vars) ∈ deployment_checkboxes)
    (hp : (p, (some true : Var)) ∈ vars) (hpl : pyLower p ≠ "local")
    (hl : Dict.find? vars "local" = some (some false)) :
    ((node, "local", some current_gpu_tier) : DeploymentTask)
      ∈ get_selected_deployments state current_gpu_tier deployment_checkboxes
          local_only_checkboxes false := by
  unfold get_selected_deployments
  simp only [Bool.false_eq_true, if_false]
  obtain ⟨s, t, hsplit⟩ := List.append_of_mem hmem
  subst hsplit
  rw [List.foldl_append, List.foldl_cons]
  exact mem_visibleFold current_gpu_tier t _
    (visibleNodeLoop_auto_local current_gpu_tier _ (node, vars) p hp hpl hl)

open DeploymentStateManager in
/-- Witness for `auto_local_rule`: spec §8's concrete instance — with
(FLUX Dev, aws, t4) checked and (FLUX Dev, local, t4) unchecked, the task
list of `collectTasks(false)` contains (FLUX Dev, local, t4). -/
theorem auto_local_rule_witness :
    (("FLUX Dev", [("aws", (some true : Var)), ("local", (some false : Var))])
        ∈ ([("FLUX Dev", [("aws", some true), ("local", some false)])] : Checkboxes)) ∧
    (pyLower "aws" ≠ "local") ∧
    (((("FLUX Dev", "local", some "t4") : DeploymentTask))
      ∈ get_selected_deployments [] "t4"
          [("FLUX Dev", [("aws", some true), ("local", some false)])] [] false) :=
  ⟨by decide, by decide,
    auto_local_rule [] "t4"
      [("FLUX Dev", [("aws", some true), ("local", some false)])] []
      "FLUX Dev" "aws" [("aws", some true), ("local", some false)]
      (by decide) (by decide) (by decide) (by decide)⟩

open DeploymentStateManager in
/-- C3: For every selection state (saved per-tier state plus currently visible
checkboxes, in either local-only or normal mode), the task list returned by
`get_selected_deployments` contains no two tasks with an identical
(node, provider, gpu_tier) tuple. -/
theorem get_selected_deployments_nodup
    (state : DeploymentState) (current_gpu_tier : String)
    (deployment_checkboxes : Checkboxes) (local_only_checkboxes : Dict Var)
    (is_local_only : Bool)
    (hs : DeploymentStateWF state) (hl : Dict.WF local_only_checkboxes) :
    (get_selected_deployments state current_gpu_tier deployment_checkboxes
        local_only_checkboxes is_local_only).Nodup := by
  unfold get_selected_deployments
  by_cases hmode : is_local_only = true
  · simp only [hmode, if_true]
    exact localTasks_nodup local_only_checkboxes hl
  · simp only [hmode, if_false]
    exact visibleFold_nodup current_gpu_tier deployment_checkboxes _
      (savedTasks_nodup state hs)

open DeploymentStateManager in
/-- Witness for `get_selected_deployments_nodup`: a concrete state with
selections in two saved tiers plus visible checkboxes that repeat one of
them (with auto-local firing) still yields a duplicate-free task list. -/
theorem get_selected_deployments_nodup_witness :
    DeploymentStateWF
        [("t4", [("FLUX Dev", [("aws", true), ("local", false)])]),
         ("a10g", [("FLUX Dev", [("aws", true)]), ("SDXL", [("gcp", true)])])] ∧
    Dict.WF ([] : Dict Var) ∧
    (get_selected_deployments
        [("t4", [("FLUX Dev", [("aws", true), ("local", false)])]),
         ("a10g", [("FLUX Dev", [("aws", true)]), ("SDXL", [("gcp", true)])])]
        "t4"
        [("FLUX Dev", [("aws", some true), ("azure", some false), ("local", some false)])]
        [] false).Nodup :=
  ⟨by decide, by decide,
    get_selected_deployments_nodup
      [("t4", [("FLUX Dev", [("aws", true), ("local", false)])]),
       ("a10g", [("FLUX Dev", [("aws", true)]), ("SDXL", [("gcp", true)])])]
      "t4"
      [("FLUX Dev", [("aws", some true), ("azure", some false), ("local", some false)])]
      [] false (by decide) (by decide)⟩


/-! ## Deployment orchestrator (`src/gui/tabs/deployment_actions.py`,
`execute_deployments`, lines 16-86)

The orchestrator loop dispatches each `(node, provider, gpu_tier)` task to a
provider handler (`deployment_handlers.deploy_to_*`), catches every exception
at the per-task `try`/`except`, and appends each truthy result both to the
success list and to the endpoint store
(`load_endpoints` → `append` → `save_endpoints`,
config_manager.py lines 128-161).  The handlers are embedded as an
environment of functions; a record is opaque to the orchestrator (only
appended, never inspected), so the record type is a parameter `R`.  UI calls
(`root.after`, `status_var.set`, message boxes) have no effect on the results,
errors or store and are not modelled. -/

/-- Result of one handler call as the orchestrator's `try` block sees it:
`Except.error` is a raised exception (`str(e)`), `Except.ok (some r)` a truthy
record, `Except.ok none` a falsy result (`if result:` fails). -/
abbrev DeployOutcome (R : Type) := Except String (Option R)

/-- The provider handlers of `deployment_handlers.py`: `deploy_to_aws`,
`deploy_to_azure` and `deploy_to_gcp` take `(node_type, gpu_tier)`;
`deploy_to_local` takes the node alone. -/
structure DeployEnv (R : Type) where
  deploy_to_aws : String → Option String → DeployOutcome R
  deploy_to_azure : String → Option String → DeployOutcome R
  deploy_to_gcp : String → Option String → DeployOutcome R
  deploy_to_local : String → DeployOutcome R

/-- The provider-dispatch chain of the loop body (deployment_actions.py lines
37-50): a successful arm yields the handler's result and no error messages;
the NVIDIA-hosted and unknown-provider arms yield no result and one error
message. -/
def dispatch {R : Type} (env : DeployEnv R) (task : DeploymentTask) :
    Except String (Option R × List String) :=
  let (node, provider, gpu_tier) := task
  if pyLower provider = "aws" then
    (env.deploy_to_aws node gpu_tier).map (fun r => (r, []))
  else if pyLower provider = "azure" then
    (env.deploy_to_azure node gpu_tier).map (fun r => (r, []))
  else if pyLower provider = "gcp" then
    (env.deploy_to_gcp node gpu_tier).map (fun r => (r, []))
  else if pyLower provider = "local" then
    (env.deploy_to_local node).map (fun r => (r, []))
  else if pyLower provider = "nvidia-hosted" then
    Except.ok (none,
      [node ++ " → " ++ provider ++ ": NVIDIA-hosted deployment will be implemented in Phase 5"])
  else
    Except.ok (none, [node ++ " → " ++ provider ++ ": Unknown provider"])

/-- Mutable state of `execute_deployments`: `results`/`errors` accumulators,
the content of `endpoints.json` (threaded through `load_endpoints` /
`save_endpoints`; the `isinstance(endpoints, list)` guard is vacuous since
the store is a list here), and `attempted` — a ghost trace recording one
entry per loop iteration, in iteration order. -/
structure ExecState (R : Type) where
  results : List R
  errors : List String
  endpoints : List R
  attempted : List DeploymentTask
  deriving DecidableEq, Repr

/-- One iteration of the `for deployment in deployment_tasks` loop
(deployment_actions.py lines 30-66). -/
def execStep {R : Type} (env : DeployEnv R) (acc : ExecState R)
    (task : DeploymentTask) : ExecState R :=
  let (node, provider, _) := task
  let acc := { acc with attempted := acc.attempted ++ [task] }
  match dispatch env task with
  | Except.error e =>
      { acc with errors :=
          acc.errors ++ ["Failed to deploy " ++ node ++ " to " ++ provider ++ ": " ++ e] }
  | Except.ok (some result, es) =>
      { acc with
          results := acc.results ++ [result],
          errors := acc.errors ++ es,
          endpoints := acc.endpoints ++ [result] }
  | Except.ok (none, es) =>
      if pyLower provider ∉ ["nvidia-hosted"] then
        { acc with errors :=
            acc.errors ++ es ++ [node ++ " → " ++ provider ++ ": Deployment failed"] }
      else
        { acc with errors := acc.errors ++ es }

/-- `execute_deployments` (deployment_actions.py lines 16-86), relative to a
handler environment and an initial endpoint-store content. -/
def execute_deployments {R : Type} (env : DeployEnv R)
    (deployment_tasks : List DeploymentTask) (endpoints₀ : List R) : ExecState R :=
  List.foldl (execStep env) ⟨[], [], endpoints₀, []⟩ deployment_tasks

/-- The record a task contributes to the success list (and to the store). -/
def taskResult {R : Type} (env : DeployEnv R) (task : DeploymentTask) : Option R :=
  match dispatch env task with
  | Except.ok (some r, _) => some r
  | _ => none

/-- The error entries a task contributes. -/
def taskErrors {R : Type} (env : DeployEnv R) (task : DeploymentTask) : List String :=
  let (node, provider, _) := task
  match dispatch env task with
  | Except.error e => ["Failed to deploy " ++ node ++ " to " ++ provider ++ ": " ++ e]
  | Except.ok (some _, es) => es
  | Except.ok (none, es) =>
      if pyLower provider ∉ ["nvidia-hosted"] then
        es ++ [node ++ " → " ++ provider ++ ": Deployment failed"]
      else es

theorem execStep_eq {R : Type} (env : DeployEnv R) (acc : ExecState R)
    (task : DeploymentTask) :
    execStep env acc task =
      { results := acc.results ++ (taskResult env task).toList,
        errors := acc.errors ++ taskErrors env task,
        endpoints := acc.endpoints ++ (taskResult env task).toList,
        attempted := acc.attempted ++ [task] } := by
  obtain ⟨node, provider, gpu_tier⟩ := task
  unfold execStep taskResult taskErrors
  cases hd : dispatch env (node, provider, gpu_tier) with
  | error e => simp
  | ok pr =>
      obtain ⟨r, es⟩ := pr
      cases r with
      | some result => simp
      | none =>
          by_cases hn : pyLower provider = "nvidia-hosted" <;> simp [hn]

/-- Closed form of the whole loop: the results, errors and appended store
records are the per-task contributions, concatenated in task order, and the
iteration trace is exactly the task list. -/
theorem execute_deployments_spec {R : Type} (env : DeployEnv R)
    (deployment_tasks : List DeploymentTask) (endpoints₀ : List R) :
    execute_deployments env deployment_tasks endpoints₀ =
      { results := List.filterMap (taskResult env) deployment_tasks,
        errors := List.flatMap deployment_tasks (taskErrors env),
        endpoints := endpoints₀ ++ List.filterMap (taskResult env) deployment_tasks,
        attempted := deployment_tasks } := by
  have aux : ∀ (ts : List DeploymentTask) (acc : ExecState R),
      List.foldl (execStep env) acc ts =
        { results := acc.results ++ List.filterMap (taskResult env) ts,
          errors := acc.errors ++ List.flatMap ts (taskErrors env),
          endpoints := acc.endpoints ++ List.filterMap (taskResult env) ts,
          attempted := acc.attempted ++ ts } := by
    intro ts
    induction ts with
    | nil => intro acc; simp
    | cons t rest ih =>
        intro acc
        rw [List.foldl_cons, ih, execStep_eq]
        simp only [List.filterMap_cons, List.flatMap_cons]
        cases ht : taskResult env t with
        | none => simp
        | some r => simp
  simpa [execute_deployments] using aux deployment_tasks ⟨[], [], endpoints₀, []⟩

/-- A task names none of the five recognised providers. -/
def unknownProvider (task : DeploymentTask) : Prop :=
  pyLower task.2.1 ≠ "aws" ∧ pyLower task.2.1 ≠ "azure" ∧ pyLower task.2.1 ≠ "gcp" ∧
    pyLower task.2.1 ≠ "local" ∧ pyLower task.2.1 ≠ "nvidia-hosted"

instance (task : DeploymentTask) : Decidable (unknownProvider task) := by
  unfold unknownProvider; exact instDecidableAnd

theorem dispatch_of_unknown {R : Type} (env : DeployEnv R) (task : DeploymentTask)
    (h : unknownProvider task) :
    dispatch env task
      = Except.ok (none, [task.1 ++ " → " ++ task.2.1 ++ ": Unknown provider"]) := by
  obtain ⟨node, provider, gpu_tier⟩ := task
  obtain ⟨h1, h2, h3, h4, h5⟩ := h
  unfold dispatch
  simp only at h1 h2 h3 h4 h5
  simp [h1, h2, h3, h4, h5]


theorem taskResult_eq_none_of_fail {R : Type} (env : DeployEnv R)
    (t : DeploymentTask)
    (hfail : (∃ e, dispatch env t = Except.error e) ∨ unknownProvider t) :
    taskResult env t = none := by
  rcases hfail with ⟨e, he⟩ | hu
  · unfold taskResult; rw [he]
  · unfold taskResult; rw [dispatch_of_unknown env t hu]

theorem taskErrors_ne_nil_of_fail {R : Type} (env : DeployEnv R)
    (t : DeploymentTask)
    (hfail : (∃ e, dispatch env t = Except.error e) ∨ unknownProvider t) :
    taskErrors env t ≠ [] := by
  obtain ⟨node, provider, gpu_tier⟩ := t
  rcases hfail with ⟨e, he⟩ | hu
  · unfold taskErrors
    rw [he]
    simp
  · unfold taskErrors
    rw [dispatch_of_unknown env _ hu]
    have h5 : pyLower provider ≠ "nvidia-hosted" := hu.2.2.2.2
    simp [h5]

/-- C5: One failing task — a raised exception caught by the per-task
`try`/`except`, or an unknown provider name — contributes at least one error
entry, while every other task is still attempted in order and the success
list is exactly the successes of the surrounding tasks; in particular an
unknown provider never aborts the batch. -/
theorem bulkhead_isolation {R : Type} (env : DeployEnv R)
    (ts₁ ts₂ : List DeploymentTask) (t : DeploymentTask) (endpoints₀ : List R)
    (hfail : (∃ e, dispatch env t = Except.error e) ∨ unknownProvider t) :
    (execute_deployments env (ts₁ ++ t :: ts₂) endpoints₀).attempted
        = ts₁ ++ t :: ts₂
    ∧ (execute_deployments env (ts₁ ++ t :: ts₂) endpoints₀).results
        = List.filterMap (taskResult env) ts₁ ++ List.filterMap (taskResult env) ts₂
    ∧ (execute_deployments env (ts₁ ++ t :: ts₂) endpoints₀).errors
        = List.flatMap ts₁ (taskErrors env) ++ taskErrors env t
            ++ List.flatMap ts₂ (taskErrors env)
    ∧ taskErrors env t ≠ [] := by
  rw [execute_deployments_spec]
  have hres := taskResult_eq_none_of_fail env t hfail
  refine ⟨rfl, ?_, ?_, taskErrors_ne_nil_of_fail env t hfail⟩
  · rw [List.filterMap_append, List.filterMap_cons, hres]
  · rw [List.flatMap_append, List.flatMap_cons, List.append_assoc]

/-- Witness for `bulkhead_isolation`: a batch of three tasks whose middle
task raises `InfrastructureError` — the other two still succeed, and the
failing task leaves one error entry. -/
theorem bulkhead_isolation_witness :
    ((∃ e, dispatch (R := String)
        ⟨fun _ _ => Except.error "InfrastructureError",
         fun _ _ => Except.ok (some "azure-record"),
         fun _ _ => Except.ok (some "gcp-record"),
         fun _ => Except.ok (some "local-record")⟩
        ("FLUX Dev", "aws", some "t4") = Except.error e) ∨
      unknownProvider ("FLUX Dev", "aws", some "t4")) ∧
    (execute_deployments (R := String)
        ⟨fun _ _ => Except.error "InfrastructureError",
         fun _ _ => Except.ok (some "azure-record"),
         fun _ _ => Except.ok (some "gcp-record"),
         fun _ => Except.ok (some "local-record")⟩
        ([("SDXL", "gcp", some "t4")] ++ ("FLUX Dev", "aws", some "t4")
          :: [("SDXL", "local", some "t4")]) []).results
      = ["gcp-record", "local-record"] :=
  have henv : (∃ e, dispatch (R := String)
        ⟨fun _ _ => Except.error "InfrastructureError",
         fun _ _ => Except.ok (some "azure-record"),
         fun _ _ => Except.ok (some "gcp-record"),
         fun _ => Except.ok (some "local-record")⟩
        ("FLUX Dev", "aws", some "t4") = Except.error e) ∨
      unknownProvider ("FLUX Dev", "aws", some "t4") :=
    Or.inl ⟨"InfrastructureError", rfl⟩
  ⟨henv, by
    have h := (bulkhead_isolation (R := String)
      ⟨fun _ _ => Except.error "InfrastructureError",
       fun _ _ => Except.ok (some "azure-record"),
       fun _ _ => Except.ok (some "gcp-record"),
       fun _ => Except.ok (some "local-record")⟩
      [("SDXL", "gcp", some "t4")] [("SDXL", "local", some "t4")]
      ("FLUX Dev", "aws", some "t4") [] henv).2.1
    rw [h]
    decide⟩

/-- C9: After `execute_deployments` completes, the endpoint store holds every
record it held before, in place and unmodified, followed by exactly one
appended record per successful task (the orchestrator appends, never
deletes). -/
theorem endpoint_store_append_only {R : Type} (env : DeployEnv R)
    (deployment_tasks : List DeploymentTask) (endpoints₀ : List R) :
    (execute_deployments env deployment_tasks endpoints₀).endpoints
      = endpoints₀
          ++ List.filterMap (taskResult env) deployment_tasks
    ∧ (execute_deployments env deployment_tasks endpoints₀).results
      = List.filterMap (taskResult env) deployment_tasks := by
  rw [execute_deployments_spec]
  exact ⟨rfl, rfl⟩

/-- C10: `execute_deployments` is strictly sequential and order-preserving:
the iteration trace is exactly the task list (task i+1 runs only after task i
finished), and both the success list and the records appended to the endpoint
store are the per-task successes in the tasks' relative order. -/
theorem execute_deployments_sequential {R : Type} (env : DeployEnv R)
    (deployment_tasks : List DeploymentTask) (endpoints₀ : List R) :
    (execute_deployments env deployment_tasks endpoints₀).attempted
        = deployment_tasks
    ∧ (execute_deployments env deployment_tasks endpoints₀).results
        = List.filterMap (taskResult env) deployment_tasks
    ∧ (execute_deployments env deployment_tasks endpoints₀).endpoints
        = endpoints₀ ++ List.filterMap (taskResult env) deployment_tasks
    ∧ ∀ (t : DeploymentTask) (rest : List DeploymentTask) (acc : ExecState R),
        List.foldl (execStep env) acc (t :: rest)
          = List.foldl (execStep env) (execStep env acc t) rest := by
  rw [execute_deployments_spec]
  exact ⟨rfl, rfl, rfl, fun _ _ _ => rfl⟩


/-! ## AWS deployer (`src/deployment/aws_deployer.py`)

The ECS resources touched by the claims are embedded explicitly: clusters
(name → lifecycle status, as reported by `describe_clusters`) and services
(name → desired count).  Steps of `deploy_nim_instance` that only provision
EC2 capacity, ECR naming, task definitions and log groups
(`_ensure_ec2_capacity`, `_get_nim_repository_name`,
`_create_task_definition`) act on resources outside this state and outside
every claim, and are not modelled.  The endpoint chain of
`_get_endpoint_url` (task → container instance → EC2 public IP) is abstracted
into one oracle: the public IP when every step succeeds, otherwise the
fallback placeholder URL of line 601. -/

/-- One ECS service (the fields the claims read). -/
structure EcsService where
  serviceName : String
  desiredCount : Nat
  deriving DecidableEq, Repr

/-- ECS provider state seen through the SDK client. -/
structure EcsState where
  clusters : Dict String
  services : Dict EcsService
  deriving DecidableEq, Repr

/-- Stable ARN of a cluster name. -/
def clusterArn (name : String) : String := "arn:aws:ecs:cluster/" ++ name

/-- Provider-side `ecs_client.create_cluster`, in the conflict-safe model of
spec §4.1 and §5: creating a name that is already taken reports an "already
exists" error; otherwise the cluster is created `ACTIVE`. -/
def ecsCreateCluster (st : EcsState) (name : String) :
    Except String (String × EcsState) :=
  if Dict.contains st.clusters name then
    Except.error ("Cluster " ++ name ++ " already exists")
  else
    Except.ok (clusterArn name,
      { st with clusters := Dict.insert st.clusters name "ACTIVE" })

namespace AWSDeployer

/-- `AWSDeployer._get_or_create_cluster` (aws_deployer.py lines 131-154):
`describe_clusters` and return the ARN when an `ACTIVE` cluster is found (a
describe failure is swallowed by `except Exception: pass` and treated as not
found), otherwise call `create_cluster`.  The create call is wrapped in no
handler: any error it reports, "already exists" included, propagates. -/
def _get_or_create_cluster (st : EcsState) (cluster_name : String) :
    Except String (String × EcsState) :=
  match Dict.find? st.clusters cluster_name with
  | some status =>
      if status = "ACTIVE" then Except.ok (clusterArn cluster_name, st)
      else ecsCreateCluster st cluster_name
  | none => ecsCreateCluster st cluster_name

/-- `AWSDeployer._create_ecs_service` (lines 278-318): desired count is
`0 if scale_to_zero else 1`; an "already exists" error from `create_service`
falls back to `describe_services` and returns the existing service. -/
def _create_ecs_service (st : EcsState) (service_name : String)
    (scale_to_zero : Bool) : EcsService × EcsState :=
  let desired_count := if scale_to_zero then 0 else 1
  match Dict.find? st.services service_name with
  | some service => (service, st)
  | none =>
      let service : EcsService := ⟨service_name, desired_count⟩
      (service,
        { st with services := Dict.insert st.services service_name service })

/-- Run-specific inputs of one AWS deploy: the public IP the endpoint chain
resolves to (when every lookup succeeds) and `datetime.utcnow()`. -/
structure AwsEnv where
  public_ip : Option String
  deployed_at : String

/-- `AWSDeployer._get_endpoint_url` (lines 556-601): the EC2 public IP on
port 8000 when resolved, else the placeholder fallback of line 601. -/
def _get_endpoint_url (region : String) (env : AwsEnv) (instance_name : String) :
    String :=
  match env.public_ip with
  | some public_ip => "http://" ++ public_ip ++ ":8000"
  | none =>
      "https://nim-" ++ instance_name ++ "." ++ region ++ ".aws.nim.api.nvidia.com"

/-- The `deployment_info` dictionary returned by
`AWSDeployer.deploy_nim_instance` (lines 112-122). -/
structure AwsRecord where
  node_type : String
  instance_name : String
  provider : String
  region : String
  endpoint : String
  cluster : String
  service : String
  deployed_at : String
  status : String
  deriving DecidableEq, Repr

/-- `AWSDeployer.deploy_nim_instance` (aws_deployer.py lines 70-129). -/
def deploy_nim_instance (region : String) (env : AwsEnv) (st : EcsState)
    (node_type instance_name : String) (scale_to_zero : Bool) :
    Except String (AwsRecord × EcsState) := do
  let cluster_name := "budgetguard-nim-cluster"
  let (_, st) ← _get_or_create_cluster st cluster_name
  let (service, st) := _create_ecs_service st instance_name scale_to_zero
  let endpoint_url := _get_endpoint_url region env instance_name
  Except.ok
    ({ node_type := node_type, instance_name := instance_name,
       provider := "aws", region := region, endpoint := endpoint_url,
       cluster := cluster_name, service := service.serviceName,
       deployed_at := env.deployed_at, status := "running" }, st)

end AWSDeployer

/-- C1: evaluation at the failing input.  With `scale_to_zero = true` the AWS
deployer creates its ECS service with `desiredCount = 0` (the workload is not
running), yet the returned deployment record carries the hard-coded status
string "running" — the claim's "never Running" is violated.  The GCP record
under the same flag reports "stopped" (the zero-replica Created state), as
the claim describes. -/
theorem aws_scale_to_zero_reports_running :
    ∃ record st,
      AWSDeployer.deploy_nim_instance "us-east-1" ⟨none, "2026-01-01T00:00:00Z"⟩
          ⟨[], []⟩ "FLUX Dev" "nim-flux-dev-t4" true = Except.ok (record, st)
      ∧ record.status = "running"
      ∧ Dict.find? st.services "nim-flux-dev-t4"
          = some { serviceName := "nim-flux-dev-t4", desiredCount := 0 } :=
  ⟨_, _, rfl, rfl, by decide⟩

theorem ecs_find?_of_none {st : EcsState} {name : String}
    (h : Dict.find? st.clusters name = none) :
    ecsCreateCluster st name
      = Except.ok (clusterArn name,
          { st with clusters := Dict.insert st.clusters name "ACTIVE" }) := by
  unfold ecsCreateCluster
  rw [if_neg (by simp [Dict.contains, h])]

/-! ## GCP deployer (`src/deployment/gcp_deployer.py`)

GKE and Kubernetes state touched by the claims: the GKE clusters of the
project/zone (name → cluster with its node pools), the Kubernetes
Deployments (name → `spec.replicas`) and Services (present or not) of the
`default` namespace. -/

/-- One GKE node pool (the fields the claims read): `initial_node_count`,
autoscaling bounds, and whether the config carries `accelerators`. -/
structure GkeNodePool where
  name : String
  initial_node_count : Nat
  min_node_count : Nat
  max_node_count : Nat
  has_accelerators : Bool
  deriving DecidableEq, Repr

/-- One GKE cluster. -/
structure GkeCluster where
  name : String
  node_pools : List GkeNodePool
  deriving DecidableEq, Repr

/-- GKE + Kubernetes provider state seen through the SDK clients. -/
structure GkeState where
  clusters : Dict GkeCluster
  deployments : Dict Nat
  services : Dict Unit
  deriving DecidableEq, Repr

/-- Constructor parameters of `GCPDeployer.__init__` (gcp_deployer.py lines
48-98); `cluster_name` is set to "budgetguard-nim-gke" there. -/
structure GCPDeployer where
  project_id : String
  region : String
  zone : String
  cluster_name : String
  gpu_machine_type : String
  gpu_type : String
  deriving DecidableEq, Repr

namespace GCPDeployer

/-- The system node pool the `Cluster(...)` creation config of lines 193-217
yields: `initial_node_count=1`, CPU-only (`e2-standard-2`, no accelerators),
not autoscaled. -/
def systemNodePool : GkeNodePool :=
  { name := "default-pool", initial_node_count := 1, min_node_count := 1,
    max_node_count := 1, has_accelerators := false }

/-- The GPU pool `_create_gpu_node_pool` creates (lines 255-306):
`initial_node_count=0`, autoscaling 0..10, one accelerator, tainted. -/
def gpuNodePool : GkeNodePool :=
  { name := "gpu-node-pool", initial_node_count := 0, min_node_count := 0,
    max_node_count := 10, has_accelerators := true }

/-- `GCPDeployer._has_gpu_node_pool` (lines 241-253): some pool's config has
accelerators. -/
def _has_gpu_node_pool (cluster : GkeCluster) : Bool :=
  cluster.node_pools.any (fun pool => pool.has_accelerators)

/-- `GCPDeployer._create_gpu_node_pool` (lines 255-306): add the GPU pool to
the cluster on the provider side (the caller's `cluster` object is not
refreshed). -/
def _create_gpu_node_pool (st : GkeState) (cluster : GkeCluster) : GkeState :=
  let updated : GkeCluster :=
    { cluster with node_pools := cluster.node_pools ++ [gpuNodePool] }
  { st with clusters := Dict.insert st.clusters cluster.name updated }

/-- Provider-side `container_client.create_cluster`, in the conflict-safe
model of spec §4.1 and §5: a taken name reports an "already exists" error,
otherwise the cluster is created with the system pool of the config. -/
def gkeCreateCluster (st : GkeState) (name : String) :
    Except String (GkeCluster × GkeState) :=
  if Dict.contains st.clusters name then
    Except.error ("Cluster " ++ name ++ " already exists")
  else
    let cluster : GkeCluster := { name := name, node_pools := [systemNodePool] }
    Except.ok (cluster, { st with clusters := Dict.insert st.clusters name cluster })

/-- `GCPDeployer._get_or_create_gke_cluster` (gcp_deployer.py lines 168-239,
with the evident control flow — see the file comment about the unclosed
`try:`): `get_cluster`, and when found, create the GPU node pool if missing
and return the fetched cluster object; on `NotFound`, create the cluster,
re-fetch it, create the GPU pool and return it.  The create call is wrapped
in no already-exists handler, so a conflict error propagates. -/
def _get_or_create_gke_cluster (self : GCPDeployer) (st : GkeState) :
    Except String (GkeCluster × GkeState) :=
  match Dict.find? st.clusters self.cluster_name with
  | some cluster =>
      if ¬ _has_gpu_node_pool cluster then
        Except.ok (cluster, _create_gpu_node_pool st cluster)
      else
        Except.ok (cluster, st)
  | none => do
      let (cluster, st) ← gkeCreateCluster st self.cluster_name
      Except.ok (cluster, _create_gpu_node_pool st cluster)

/-- `GCPDeployer._create_k8s_deployment` (lines 414-497): the Deployment spec
carries `replicas = 0 if scale_to_zero else 1`; `create_namespaced_deployment`,
and on a 409 conflict `patch_namespaced_deployment` with the same body —
either way the named Deployment ends with this replica count. -/
def _create_k8s_deployment (st : GkeState) (instance_name : String)
    (scale_to_zero : Bool) : GkeState :=
  let replicas := if scale_to_zero then 0 else 1
  { st with deployments := Dict.insert st.deployments instance_name replicas }

/-- `GCPDeployer._create_k8s_service` (lines 499-539):
`create_namespaced_service`; a 409 conflict reads the existing service back. -/
def _create_k8s_service (st : GkeState) (instance_name : String) : GkeState :=
  { st with services := Dict.insert st.services instance_name () }

/-- Run-specific inputs of one GCP deploy: what the LoadBalancer ingress of
the service reports at the i-th poll of `_get_endpoint_url` (`none` while the
IP is not ready), and `datetime.utcnow()`. -/
structure GcpEnv where
  ingress_at : Nat → Option String
  deployed_at : String

/-- The polling loop of `GCPDeployer._get_endpoint_url` (lines 565-595):
`while retry_count < max_retries` with `max_retries = 30`; a read failure
(service absent) is caught, logged and retried like an empty ingress; on
exhaustion the placeholder URL of line 595 is returned. -/
def getEndpointUrlLoop (self : GCPDeployer) (env : GcpEnv) (st : GkeState)
    (instance_name : String) : Nat → Nat → String
  | 0, _ =>
      "http://" ++ instance_name ++ "." ++ self.region ++ ".cloudapp.gcp.com:8000"
  | fuel + 1, retry_count =>
      match Dict.find? st.services instance_name with
      | some _ =>
          match env.ingress_at retry_count with
          | some ip_or_hostname => "http://" ++ ip_or_hostname ++ ":8000"
          | none => getEndpointUrlLoop self env st instance_name fuel (retry_count + 1)
      | none => getEndpointUrlLoop self env st instance_name fuel (retry_count + 1)

/-- `GCPDeployer._get_endpoint_url` (lines 565-595). -/
def _get_endpoint_url (self : GCPDeployer) (env : GcpEnv) (st : GkeState)
    (instance_name : String) : String :=
  getEndpointUrlLoop self env st instance_name 30 0

/-- The `deployment_info` dictionary `GCPDeployer.deploy_nim_instance`
returns (lines 145-159). -/
structure GcpRecord where
  node_type : String
  instance_name : String
  provider : String
  region : String
  zone : String
  project_id : String
  cluster : String
  endpoint : String
  deployed_at : String
  status : String
  gpu_machine_type : String
  gpu_type : String
  gpu_tier : Option String
  deriving DecidableEq, Repr

/-- `GCPDeployer.deploy_nim_instance` (gcp_deployer.py lines 100-166).
`_initialize_k8s_client` and `_get_nim_image_uri` touch none of the modelled
state; `_wait_for_deployment_ready` (run only when not scale-to-zero) logs a
warning on timeout and raises nothing. -/
def deploy_nim_instance (self : GCPDeployer) (env : GcpEnv) (st : GkeState)
    (node_type instance_name : String) (scale_to_zero : Bool)
    (gpu_tier : Option String) : Except String (GcpRecord × GkeState) := do
  let (_, st) ← self._get_or_create_gke_cluster st
  let st := _create_k8s_deployment st instance_name scale_to_zero
  let st := _create_k8s_service st instance_name
  let endpoint_url := self._get_endpoint_url env st instance_name
  Except.ok
    ({ node_type := node_type, instance_name := instance_name,
       provider := "gcp", region := self.region, zone := self.zone,
       project_id := self.project_id, cluster := self.cluster_name,
       endpoint := endpoint_url, deployed_at := env.deployed_at,
       status := if scale_to_zero then "stopped" else "running",
       gpu_machine_type := self.gpu_machine_type, gpu_type := self.gpu_type,
       gpu_tier := gpu_tier }, st)

/-- `GCPDeployer.delete_deployment` (gcp_deployer.py lines 682-705):
`delete_namespaced_deployment` — a raise (`ApiException` 404 when the name is
unknown) is caught by the outer `except` which returns `False`; then
`delete_namespaced_service` inside its own `try`/`except: pass`; then
`return True`. -/
def delete_deployment (st : GkeState) (instance_name : String) :
    Bool × GkeState :=
  match Dict.find? st.deployments instance_name with
  | none => (false, st)
  | some _ =>
      let st := { st with deployments := Dict.erase st.deployments instance_name }
      let st :=
        match Dict.find? st.services instance_name with
        | some _ => { st with services := Dict.erase st.services instance_name }
        | none => st
      (true, st)

end GCPDeployer

/-! ## Azure deployer (`src/deployment/azure_deployer.py`)

Only `delete_deployment` (lines 675-698) is cited by a claim; its body is
the same Kubernetes sequence as the GCP one, over the AKS cluster's
`default` namespace. -/

/-- Kubernetes state of the AKS cluster. -/
structure AksState where
  deployments : Dict Nat
  services : Dict Unit
  deriving DecidableEq, Repr

namespace AzureDeployer

/-- `AzureDeployer.delete_deployment` (azure_deployer.py lines 675-698):
identical control flow to the GCP one. -/
def delete_deployment (st : AksState) (instance_name : String) :
    Bool × AksState :=
  match Dict.find? st.deployments instance_name with
  | none => (false, st)
  | some _ =>
      let st := { st with deployments := Dict.erase st.deployments instance_name }
      let st :=
        match Dict.find? st.services instance_name with
        | some _ => { st with services := Dict.erase st.services instance_name }
        | none => st
      (true, st)

end AzureDeployer


/-! ### C6: idempotence of the get-or-create cluster operations -/

theorem gke_find?_of_none {st : GkeState} {name : String}
    (h : Dict.find? st.clusters name = none) :
    GCPDeployer.gkeCreateCluster st name
      = Except.ok (GkeCluster.mk name [GCPDeployer.systemNodePool],
          GkeState.mk
            (Dict.insert st.clusters name
              (GkeCluster.mk name [GCPDeployer.systemNodePool]))
            st.deployments st.services) := by
  unfold GCPDeployer.gkeCreateCluster
  rw [if_neg (by simp [Dict.contains, h])]

/-- C6 (amended): the per-provider get-or-create cluster operation is
get-or-create idempotent — from a state without the cluster, the first call
creates it (AWS: `ACTIVE`; GCP: with the system pool, then the GPU pool) and
touches no other cluster, and a second identical call finds the existing
cluster and performs no create call (zero side effects) — but an "already
exists" conflict reported by the cluster create call itself is NOT treated
as success: it propagates as a failure (the already-exists-is-success
handling of the source lives in `_create_ecs_service`,
`_create_launch_template`, `_create_auto_scaling_group` and the Kubernetes
workload/service creation, not in the cluster functions). -/
theorem get_or_create_cluster_idempotent (st : EcsState)
    (self : GCPDeployer) (gst : GkeState)
    (habsent : Dict.find? st.clusters "budgetguard-nim-cluster" = none)
    (hgabsent : Dict.find? gst.clusters self.cluster_name = none) :
    (∃ st₁ : EcsState,
      AWSDeployer._get_or_create_cluster st "budgetguard-nim-cluster"
        = Except.ok (clusterArn "budgetguard-nim-cluster", st₁)
      ∧ AWSDeployer._get_or_create_cluster st₁ "budgetguard-nim-cluster"
        = Except.ok (clusterArn "budgetguard-nim-cluster", st₁)
      ∧ Dict.find? st₁.clusters "budgetguard-nim-cluster" = some "ACTIVE"
      ∧ ∀ k, k ≠ "budgetguard-nim-cluster" →
          Dict.find? st₁.clusters k = Dict.find? st.clusters k)
    ∧ (∃ gst₁ : GkeState,
      self._get_or_create_gke_cluster gst
        = Except.ok (GkeCluster.mk self.cluster_name [GCPDeployer.systemNodePool], gst₁)
      ∧ self._get_or_create_gke_cluster gst₁
        = Except.ok (GkeCluster.mk self.cluster_name
            [GCPDeployer.systemNodePool, GCPDeployer.gpuNodePool], gst₁)
      ∧ Dict.find? gst₁.clusters self.cluster_name
        = some (GkeCluster.mk self.cluster_name
            [GCPDeployer.systemNodePool, GCPDeployer.gpuNodePool])
      ∧ ∀ k, k ≠ self.cluster_name →
          Dict.find? gst₁.clusters k = Dict.find? gst.clusters k)
    ∧ ∀ (st' : EcsState) (status : String),
        Dict.find? st'.clusters "budgetguard-nim-cluster" = some status →
        status ≠ "ACTIVE" →
        AWSDeployer._get_or_create_cluster st' "budgetguard-nim-cluster"
          = Except.error "Cluster budgetguard-nim-cluster already exists" := by
  refine ⟨?_, ?_, ?_⟩
  · refine ⟨EcsState.mk (Dict.insert st.clusters "budgetguard-nim-cluster" "ACTIVE")
        st.services, ?_, ?_, ?_, ?_⟩
    · unfold AWSDeployer._get_or_create_cluster
      rw [habsent, ecs_find?_of_none habsent]
    · unfold AWSDeployer._get_or_create_cluster
      simp only [Dict.find?_insert_self]
      simp
    · simp [Dict.find?_insert_self]
    · intro k hk
      exact Dict.find?_insert_ne _ _ _ _ hk
  · refine ⟨GkeState.mk
        (Dict.insert
          (Dict.insert gst.clusters self.cluster_name
            (GkeCluster.mk self.cluster_name [GCPDeployer.systemNodePool]))
          self.cluster_name
          (GkeCluster.mk self.cluster_name
            [GCPDeployer.systemNodePool, GCPDeployer.gpuNodePool]))
        gst.deployments gst.services, ?_, ?_, ?_, ?_⟩
    · unfold GCPDeployer._get_or_create_gke_cluster
      rw [hgabsent]
      show (GCPDeployer.gkeCreateCluster gst self.cluster_name >>= fun x =>
          Except.ok (x.1, GCPDeployer._create_gpu_node_pool x.2 x.1)) = _
      rw [gke_find?_of_none hgabsent]
      rfl
    · unfold GCPDeployer._get_or_create_gke_cluster
      simp only [Dict.find?_insert_self]
      show (if ¬ GCPDeployer._has_gpu_node_pool (GkeCluster.mk self.cluster_name
          [GCPDeployer.systemNodePool, GCPDeployer.gpuNodePool]) then _ else _) = _
      rw [if_neg (by simp [GCPDeployer._has_gpu_node_pool, GCPDeployer.gpuNodePool])]
    · simp [Dict.find?_insert_self]
    · intro k hk
      rw [Dict.find?_insert_ne _ _ _ _ hk, Dict.find?_insert_ne _ _ _ _ hk]
  · intro st' status hfound hstatus
    unfold AWSDeployer._get_or_create_cluster
    rw [hfound]
    show (if status = "ACTIVE" then
        Except.ok (clusterArn "budgetguard-nim-cluster", st')
      else ecsCreateCluster st' "budgetguard-nim-cluster")
      = Except.error "Cluster budgetguard-nim-cluster already exists"
    rw [if_neg hstatus]
    unfold ecsCreateCluster
    rw [if_pos (by simp [Dict.contains, hfound])]
    rfl

/-- Witness for `get_or_create_cluster_idempotent` on empty provider
states. -/
theorem get_or_create_cluster_idempotent_witness :
    (Dict.find? (EcsState.clusters ⟨[], []⟩) "budgetguard-nim-cluster" = none) ∧
    (Dict.find? (GkeState.clusters ⟨[], [], []⟩)
        (GCPDeployer.cluster_name ⟨"proj", "us-central1", "us-central1-a",
          "budgetguard-nim-gke", "n1-standard-4", "nvidia-tesla-t4"⟩) = none) ∧
    (∃ st₁ : EcsState,
      AWSDeployer._get_or_create_cluster ⟨[], []⟩ "budgetguard-nim-cluster"
        = Except.ok (clusterArn "budgetguard-nim-cluster", st₁)
      ∧ AWSDeployer._get_or_create_cluster st₁ "budgetguard-nim-cluster"
        = Except.ok (clusterArn "budgetguard-nim-cluster", st₁)
      ∧ Dict.find? st₁.clusters "budgetguard-nim-cluster" = some "ACTIVE"
      ∧ ∀ k, k ≠ "budgetguard-nim-cluster" →
          Dict.find? st₁.clusters k = Dict.find? (EcsState.clusters ⟨[], []⟩) k) :=
  ⟨rfl, rfl,
    (get_or_create_cluster_idempotent ⟨[], []⟩
      ⟨"proj", "us-central1", "us-central1-a", "budgetguard-nim-gke",
       "n1-standard-4", "nvidia-tesla-t4"⟩ ⟨[], [], []⟩ rfl rfl).1⟩

/-- C6, refutation of the claim as stated: an "already exists" error from the
cluster create call is NOT treated as success.  Concrete input: the cluster
exists but `describe_clusters` reports it in a non-`ACTIVE` lifecycle state
(`PROVISIONING`), so the code falls through to `create_cluster`, whose
conflict error propagates out of `_get_or_create_cluster` as a failure. -/
theorem get_or_create_cluster_conflict_propagates :
    AWSDeployer._get_or_create_cluster
        (⟨[("budgetguard-nim-cluster", "PROVISIONING")], []⟩ : EcsState)
        "budgetguard-nim-cluster"
      = Except.error "Cluster budgetguard-nim-cluster already exists" := rfl


/-! ### C7: endpoint-resolution timeout yields a degraded success record -/

theorem getEndpointUrlLoop_exhausts (self : GCPDeployer) (env : GCPDeployer.GcpEnv)
    (st : GkeState) (instance_name : String)
    (h : ∀ i, env.ingress_at i = none) :
    ∀ (fuel retry_count : Nat),
      GCPDeployer.getEndpointUrlLoop self env st instance_name fuel retry_count
        = "http://" ++ instance_name ++ "." ++ self.region ++ ".cloudapp.gcp.com:8000" := by
  intro fuel
  induction fuel with
  | zero => intro _; rfl
  | succ n ih =>
      intro retry_count
      simp only [GCPDeployer.getEndpointUrlLoop]
      cases Dict.find? st.services instance_name with
      | some u =>
          rw [h retry_count]
          exact ih (retry_count + 1)
      | none => exact ih (retry_count + 1)

theorem get_or_create_gke_cluster_ok (self : GCPDeployer) (st : GkeState) :
    ∃ cluster gst₁, self._get_or_create_gke_cluster st = Except.ok (cluster, gst₁)
      ∧ gst₁.deployments = st.deployments ∧ gst₁.services = st.services := by
  unfold GCPDeployer._get_or_create_gke_cluster
  cases hfind : Dict.find? st.clusters self.cluster_name with
  | some cluster =>
      by_cases hgpu : GCPDeployer._has_gpu_node_pool cluster
      · exact ⟨cluster, st, by simp [hgpu], rfl, rfl⟩
      · refine ⟨cluster, GCPDeployer._create_gpu_node_pool st cluster, by simp [hgpu], rfl, rfl⟩
  | none =>
      rw [gke_find?_of_none hfind]
      exact ⟨_, _, rfl, rfl, rfl⟩

/-- C7 (amended): when endpoint resolution exhausts its 30 bounded retries
without a reachable LoadBalancer ingress, the already-created workload is not
rolled back (the Deployment stays, with its configured replica count) and
`deploy_nim_instance` still returns a success record whose endpoint is the
placeholder URL — but the record's status is "stopped" when
`scale_to_zero=true` (the default) and "running" otherwise, never
"pending". -/
theorem endpoint_timeout_degraded_record (self : GCPDeployer)
    (env : GCPDeployer.GcpEnv) (st : GkeState)
    (node_type instance_name : String) (scale_to_zero : Bool)
    (gpu_tier : Option String)
    (hingress : ∀ i, env.ingress_at i = none) :
    ∃ record gst',
      self.deploy_nim_instance env st node_type instance_name scale_to_zero gpu_tier
        = Except.ok (record, gst')
      ∧ record.endpoint
        = "http://" ++ instance_name ++ "." ++ self.region ++ ".cloudapp.gcp.com:8000"
      ∧ record.status = (if scale_to_zero then "stopped" else "running")
      ∧ record.status ≠ "pending"
      ∧ Dict.find? gst'.deployments instance_name
          = some (if scale_to_zero then 0 else 1) := by
  obtain ⟨cluster, gst₁, hok, hdep, hserv⟩ := get_or_create_gke_cluster_ok self st
  unfold GCPDeployer.deploy_nim_instance
  rw [hok]
  refine ⟨_, _, rfl, ?_, ?_, ?_, ?_⟩
  · show self._get_endpoint_url env
        (GCPDeployer._create_k8s_service
          (GCPDeployer._create_k8s_deployment gst₁ instance_name scale_to_zero)
          instance_name) instance_name = _
    exact getEndpointUrlLoop_exhausts self env _ instance_name hingress 30 0
  · rfl
  · cases scale_to_zero
    · show ("running" : String) ≠ "pending"
      decide
    · show ("stopped" : String) ≠ "pending"
      decide
  · show Dict.find? (Dict.insert gst₁.deployments instance_name
        (if scale_to_zero then 0 else 1)) instance_name = _
    exact Dict.find?_insert_self _ _ _


/-- Witness for `endpoint_timeout_degraded_record`: spec §8's scenario,
`(FLUX Dev, gcp, t4)` with an ingress that never resolves. -/
theorem endpoint_timeout_degraded_record_witness :
    (∀ i : Nat, GCPDeployer.GcpEnv.ingress_at
        ⟨fun _ => none, "2026-01-01T00:00:00Z"⟩ i = none) ∧
    (∃ record gst',
      GCPDeployer.deploy_nim_instance
          ⟨"proj", "us-central1", "us-central1-a", "budgetguard-nim-gke",
           "n1-standard-4", "nvidia-tesla-t4"⟩
          ⟨fun _ => none, "2026-01-01T00:00:00Z"⟩ (⟨[], [], []⟩ : GkeState)
          "FLUX Dev" "nim-flux-dev-t4" true (some "t4")
        = Except.ok (record, gst')
      ∧ record.endpoint
        = "http://" ++ "nim-flux-dev-t4" ++ "." ++ "us-central1" ++ ".cloudapp.gcp.com:8000"
      ∧ record.status = (if true then "stopped" else "running")
      ∧ record.status ≠ "pending"
      ∧ Dict.find? gst'.deployments "nim-flux-dev-t4"
          = some (if true then 0 else 1)) :=
  ⟨fun _ => rfl,
    endpoint_timeout_degraded_record
      ⟨"proj", "us-central1", "us-central1-a", "budgetguard-nim-gke",
       "n1-standard-4", "nvidia-tesla-t4"⟩
      ⟨fun _ => none, "2026-01-01T00:00:00Z"⟩ (⟨[], [], []⟩ : GkeState)
      "FLUX Dev" "nim-flux-dev-t4" true (some "t4") (fun _ => rfl)⟩

/-- C7, refutation of the claim as stated: at a concrete input whose ingress
never resolves, the degraded record's status is "stopped" (scale-to-zero
default) — not "pending" as the claim asserts. -/
theorem endpoint_timeout_status_not_pending :
    ∃ record gst',
      GCPDeployer.deploy_nim_instance
          ⟨"proj", "us-central1", "us-central1-a", "budgetguard-nim-gke",
           "n1-standard-4", "nvidia-tesla-t4"⟩
          ⟨fun _ => none, "2026-01-01T00:00:00Z"⟩ (⟨[], [], []⟩ : GkeState)
          "FLUX Dev" "nim-flux-dev-t4" true (some "t4")
        = Except.ok (record, gst')
      ∧ record.endpoint = "http://nim-flux-dev-t4.us-central1.cloudapp.gcp.com:8000"
      ∧ record.status = "stopped"
      ∧ record.status ≠ "pending" :=
  ⟨_, _, rfl, rfl, rfl, by decide⟩

/-! ### C8: delete_deployment removes workload and service; second delete -/

theorem delete_find?_erase_self {α : Type} (d : Dict α) (k : String) :
    Dict.find? (Dict.erase d k) k = none := by
  induction d with
  | nil => rfl
  | cons p d ih =>
      unfold Dict.erase at ih ⊢
      rw [List.filter_cons]
      by_cases hp : p.1 = k
      · rw [if_neg (by simp [hp])]
        exact ih
      · rw [if_pos (by simp [hp])]
        simp only [Dict.find?, hp, if_false]
        exact ih

/-- C8 (amended): on an instance whose workload and service both exist,
`delete_deployment` removes both and returns `True`; calling it again with
the same name raises nothing out of the function — the NotFound from the
workload deletion is caught — but it returns `False` and leaves the state
unchanged: the second call is silent, yet reported as a failure rather than
a success.  Holds for the GCP and the Azure deployer alike. -/
theorem delete_deployment_removes_both_second_false
    (gst : GkeState) (ast : AksState) (name : String) (r ra : Nat)
    (hg : Dict.find? gst.deployments name = some r)
    (hgs : Dict.find? gst.services name = some ())
    (ha : Dict.find? ast.deployments name = some ra)
    (has : Dict.find? ast.services name = some ()) :
    ((GCPDeployer.delete_deployment gst name).1 = true
     ∧ Dict.find? (GCPDeployer.delete_deployment gst name).2.deployments name = none
     ∧ Dict.find? (GCPDeployer.delete_deployment gst name).2.services name = none
     ∧ GCPDeployer.delete_deployment (GCPDeployer.delete_deployment gst name).2 name
        = (false, (GCPDeployer.delete_deployment gst name).2))
    ∧ ((AzureDeployer.delete_deployment ast name).1 = true
     ∧ Dict.find? (AzureDeployer.delete_deployment ast name).2.deployments name = none
     ∧ Dict.find? (AzureDeployer.delete_deployment ast name).2.services name = none
     ∧ AzureDeployer.delete_deployment (AzureDeployer.delete_deployment ast name).2 name
        = (false, (AzureDeployer.delete_deployment ast name).2)) := by
  constructor
  · have hcall : GCPDeployer.delete_deployment gst name
        = (true, GkeState.mk gst.clusters (Dict.erase gst.deployments name)
            (Dict.erase gst.services name)) := by
      simp only [GCPDeployer.delete_deployment, hg, hgs]
    rw [hcall]
    refine ⟨rfl, delete_find?_erase_self _ _, delete_find?_erase_self _ _, ?_⟩
    unfold GCPDeployer.delete_deployment
    rw [show Dict.find? (GkeState.mk gst.clusters (Dict.erase gst.deployments name)
        (Dict.erase gst.services name)).deployments name = none
      from delete_find?_erase_self _ _]
  · have hcall : AzureDeployer.delete_deployment ast name
        = (true, AksState.mk (Dict.erase ast.deployments name)
            (Dict.erase ast.services name)) := by
      simp only [AzureDeployer.delete_deployment, ha, has]
    rw [hcall]
    refine ⟨rfl, delete_find?_erase_self _ _, delete_find?_erase_self _ _, ?_⟩
    unfold AzureDeployer.delete_deployment
    rw [show Dict.find? (AksState.mk (Dict.erase ast.deployments name)
        (Dict.erase ast.services name)).deployments name = none
      from delete_find?_erase_self _ _]

/-- Witness for `delete_deployment_removes_both_second_false` on a one-entry
Kubernetes state. -/
theorem delete_deployment_removes_both_second_false_witness :
    (Dict.find? (GkeState.deployments ⟨[], [("nim-flux-dev-t4", 0)], [("nim-flux-dev-t4", ())]⟩)
        "nim-flux-dev-t4" = some 0) ∧
    ((GCPDeployer.delete_deployment
        (⟨[], [("nim-flux-dev-t4", 0)], [("nim-flux-dev-t4", ())]⟩ : GkeState)
        "nim-flux-dev-t4").1 = true
     ∧ Dict.find? (GCPDeployer.delete_deployment
        (⟨[], [("nim-flux-dev-t4", 0)], [("nim-flux-dev-t4", ())]⟩ : GkeState)
        "nim-flux-dev-t4").2.deployments "nim-flux-dev-t4" = none) :=
  ⟨rfl, by
    have h := (delete_deployment_removes_both_second_false
      (⟨[], [("nim-flux-dev-t4", 0)], [("nim-flux-dev-t4", ())]⟩ : GkeState)
      (⟨[("nim-flux-dev-t4", 0)], [("nim-flux-dev-t4", ())]⟩ : AksState)
      "nim-flux-dev-t4" 0 0 rfl rfl rfl rfl).1
    exact ⟨h.1, h.2.1⟩⟩

/-- C8, refutation of the claim as stated: deleting the same instance twice
does not succeed silently on the second call — on both the GCP and the Azure
deployer, the second call returns `False` (the workload is gone, the
internal NotFound is caught and converted into a failure result). -/
theorem delete_deployment_twice_returns_false :
    (GCPDeployer.delete_deployment
        (GCPDeployer.delete_deployment
          (⟨[], [("nim-flux-dev-t4", 0)], [("nim-flux-dev-t4", ())]⟩ : GkeState)
          "nim-flux-dev-t4").2 "nim-flux-dev-t4").1 = false
    ∧ (AzureDeployer.delete_deployment
        (AzureDeployer.delete_deployment
          (⟨[("nim-flux-dev-t4", 0)], [("nim-flux-dev-t4", ())]⟩ : AksState)
          "nim-flux-dev-t4").2 "nim-flux-dev-t4").1 = false := by
  constructor <;> rfl

end BudgetGuard
